import Mathlib

/-!
Shallow embedding of the voter eligibility and vote-tallying engine of
`app_votingsys.py` (SIVA_Voting).  Relational rows become Lean structures,
the store becomes lists of rows, SQL statements become list operations, and
the three request handlers `verify_code`, `verify_face` and `submit_vote`
become pure functions from a request, the current UTC instant and a store
to a result, the updated store and the updated session.  Timestamps are
modelled as integers (UTC instants); the biometric oracle of `verify_face`
is modelled by two boolean inputs (face detected, face matched).
-/

namespace VotingSys

/-- Row of the `households` table.  `voted_in_cycle` is the integer flag the
source compares against `VOTED_FLAG = 1`; `voted_at` is the nullable
proof-of-vote timestamp. -/
structure Household where
  id : Nat
  society_name : String
  tower : Option String
  flat : Option String
  lane : Option String
  house_number : Option String
  secret_code : Option String
  face_recognition_image : Option String
  is_admin_blocked : Bool
  is_vote_allowed : Bool
  voted_in_cycle : Nat
  voted_at : Option Int
  deriving DecidableEq

/-- Row of the `settings` table (the columns the engine reads). -/
structure Settings where
  society_name : String
  max_candidates_selection : Nat
  max_voters : Int
  voted_count : Int
  deriving DecidableEq

/-- Row of the `voting_schedule` table; `start_time` and `end_time` are
nullable UTC instants. -/
structure ScheduleRow where
  society_name : String
  start_time : Option Int
  end_time : Option Int
  deriving DecidableEq

/-- Row of the `votes` tally table, keyed by
(society_name, tower, contestant_name, is_archived). -/
structure VoteRow where
  society_name : String
  tower : Option String
  contestant_name : String
  is_archived : Nat
  vote_count : Int
  deriving DecidableEq

/-- The relational store: the four tables the engine touches. -/
structure Store where
  households : List Household
  settings : List Settings
  schedules : List ScheduleRow
  votes : List VoteRow
  deriving DecidableEq

/-- The per-request session binding (`session` keys set by verification and
read by `submit_vote`). -/
structure Session where
  household_id : Option Nat
  society_name : Option String
  deriving DecidableEq

/-- Python truthiness of an optional request field: `data.get(k)` yields
`None` when absent, and the empty string is also falsy. -/
def truthy : Option String → Bool
  | none => false
  | some s => !(s == "")

/-- The household address filter built by the dynamic query construction of
`verify_code` and `verify_face`.  `towerFlat` stands for the SQL clause
`tower=%s AND flat=%s`, `flatOnly` for `flat=%s`, `allNull` for the clause
requiring all four address columns to be NULL. -/
inductive AddrFilter where
  | towerFlat (t f : String)
  | flatOnly (f : String)
  | allNull
  deriving DecidableEq

/-- Meaning of an address filter against a household row, following the SQL
clauses appended by the dynamic query (NULL columns never satisfy an
equality clause). -/
def matchesAddr : AddrFilter → Household → Bool
  | .towerFlat t f, h => h.tower == some t && h.flat == some f
  | .flatOnly f, h => h.flat == some f
  | .allNull, h =>
      h.tower == none && h.flat == none && h.lane == none && h.house_number == none

/-- Dynamic query construction of `verify_code` (lines 200 to 206): tower and
flat, else lane and house aliased onto the tower and flat columns, else flat
alone, else the all-NULL clause when no fragment is present, else the
request is incomplete (`none`). -/
def buildAddrCode (tower flat lane house : Option String) : Option AddrFilter :=
  if truthy tower && truthy flat then
    some (.towerFlat (tower.getD "") (flat.getD ""))
  else if truthy lane && truthy house then
    some (.towerFlat (lane.getD "") (house.getD ""))
  else if truthy flat then
    some (.flatOnly (flat.getD ""))
  else if !(truthy tower || truthy flat || truthy lane || truthy house) then
    some .allNull
  else
    none

/-- Dynamic query construction of `verify_face` (lines 274 to 278), a textual
duplicate of the one in `verify_code`. -/
def buildAddrFace (tower flat lane house : Option String) : Option AddrFilter :=
  if truthy tower && truthy flat then
    some (.towerFlat (tower.getD "") (flat.getD ""))
  else if truthy lane && truthy house then
    some (.towerFlat (lane.getD "") (house.getD ""))
  else if truthy flat then
    some (.flatOnly (flat.getD ""))
  else if !(truthy tower || truthy flat || truthy lane || truthy house) then
    some .allNull
  else
    none

/-- Result of a verification handler: an error message, or success carrying
the proof-of-vote timestamp field of the JSON response. -/
inductive VerifyResult where
  | err (msg : String)
  | ok (voted_at : Option Int)
  deriving DecidableEq

/-- Request body of `/api/verify_code`.  `mode` defaults to `vote` at the
call site (`data.get` with a default). -/
structure VerifyCodeRequest where
  society : Option String
  tower : Option String
  flat : Option String
  lane : Option String
  house : Option String
  secret_code : Option String
  mode : String
  deriving DecidableEq

/-- Embedding of the `verify_code` handler (lines 179 to 252).  The handler
only issues SELECT statements, so every branch returns the store unchanged;
on success it binds the session to the matched household. -/
def verifyCode (req : VerifyCodeRequest) (now : Int) (st : Store) (sess : Session) :
    VerifyResult × Store × Session :=
  if !(truthy req.society && truthy req.secret_code) then
    (.err "Society and secret code required", st, sess)
  else
    let soc := req.society.getD ""
    let code := req.secret_code.getD ""
    match st.schedules.find? (fun r => r.society_name == soc) with
    | none => (.err "Voting schedule not set", st, sess)
    | some sched =>
      match sched.start_time, sched.end_time with
      | some start_t, some end_t =>
        match buildAddrCode req.tower req.flat req.lane req.house with
        | none => (.err "Incomplete household details", st, sess)
        | some filt =>
          match st.households.find?
              (fun h => h.society_name == soc && h.secret_code == some code
                && matchesAddr filt h) with
          | none => (.err "Invalid credentials", st, sess)
          | some h =>
            if h.is_admin_blocked then (.err "Blocked by admin", st, sess)
            else if !h.is_vote_allowed then (.err "Voting not allowed", st, sess)
            else
              let ts : Option Int := if h.voted_in_cycle == 1 then h.voted_at else none
              let succ := (VerifyResult.ok ts, st,
                Session.mk (some h.id) (some soc))
              if req.mode == "vote" then
                if ¬(start_t ≤ now ∧ now < end_t) then
                  (.err "Voting is closed", st, sess)
                else if h.voted_in_cycle == 1 then
                  (.err "Already voted", st, sess)
                else succ
              else succ
      | _, _ => (.err "Voting schedule not set", st, sess)

/-- Request body of `/api/verify_face`. -/
structure VerifyFaceRequest where
  society : Option String
  tower : Option String
  flat : Option String
  lane : Option String
  house : Option String
  image_data : Option String
  deriving DecidableEq

/-- Embedding of the `verify_face` handler (lines 255 to 311).  When the
schedule row is absent or a bound is NULL, the source subscripts `None` or
calls a method on `None` (line 268), raising an exception caught by the
generic handler, hence the `Server error` result.  `faceDetected` models the
embedding oracle raising on an undetectable subject (the `ValueError`
branch) and `faceMatched` its verification verdict.  The success response of
this handler carries no timestamp field. -/
def verifyFace (req : VerifyFaceRequest) (now : Int)
    (faceDetected faceMatched : Bool) (st : Store) (sess : Session) :
    VerifyResult × Store × Session :=
  if !(truthy req.society && truthy req.image_data) then
    (.err "Society and image required", st, sess)
  else
    let soc := req.society.getD ""
    match st.schedules.find? (fun r => r.society_name == soc) with
    | none => (.err "Server error", st, sess)
    | some sched =>
      match sched.start_time, sched.end_time with
      | some start_t, some end_t =>
        if ¬(start_t ≤ now ∧ now < end_t) then
          (.err "Voting is closed", st, sess)
        else
          match buildAddrFace req.tower req.flat req.lane req.house with
          | none => (.err "Incomplete household details", st, sess)
          | some filt =>
            match st.households.find?
                (fun h => h.society_name == soc && h.face_recognition_image.isSome
                  && matchesAddr filt h) with
            | none => (.err "No face record found", st, sess)
            | some h =>
              if h.voted_in_cycle == 1 then (.err "Already voted", st, sess)
              else if h.is_admin_blocked then (.err "Blocked", st, sess)
              else if !h.is_vote_allowed then (.err "Voting not allowed", st, sess)
              else if !faceDetected then (.err "No face detected", st, sess)
              else if faceMatched then
                (.ok none, st, Session.mk (some h.id) (some soc))
              else (.err "Face not recognized", st, sess)
      | _, _ => (.err "Server error", st, sess)

/-- Result of the `submit_vote` handler. -/
inductive SubmitResult where
  | err (msg : String)
  | ok
  deriving DecidableEq

/-- Upsert of one tally row, mirroring
`INSERT ... ON CONFLICT (society_name,tower,contestant_name,is_archived)
DO UPDATE SET vote_count = votes.vote_count + 1` with parameters
(society, tower, contestant, 0): increment the matching active row if it
exists, otherwise insert a fresh row with count 1. -/
def upsertVote (soc : String) (tw : Option String) (c : String) :
    List VoteRow → List VoteRow
  | [] => [VoteRow.mk soc tw c 0 1]
  | r :: rest =>
    if r.society_name == soc && r.tower == tw && r.contestant_name == c
        && r.is_archived == 0 then
      { r with vote_count := r.vote_count + 1 } :: rest
    else
      r :: upsertVote soc tw c rest

/-- Read phase of `submit_vote` (lines 353 to 367): the selection check, the
household SELECT with the already-voted test, and the settings SELECT with
the capacity test.  A missing household row makes the source subscript
`None` (line 362), so that case surfaces as the generic server error.  On
success it yields the tower used for the tally keys. -/
def submitReadPhase (hid : Nat) (soc : String) (selected : List String)
    (st : Store) : Except String (Option String) :=
  if selected.isEmpty then .error "No contestants selected"
  else
    match st.households.find? (fun h => h.id == hid) with
    | none => .error "Server error"
    | some h =>
      if h.voted_in_cycle == 1 then .error "Already voted"
      else
        match st.settings.find? (fun s => s.society_name == soc) with
        | none => .error "Settings not found"
        | some s =>
          if s.voted_count ≥ s.max_voters then .error "Max votes reached"
          else .ok h.tower

/-- Write phase of `submit_vote` (lines 369 to 376): one tally upsert per
selected contestant in order, then `voted_count + 1` on the settings row of
the society, then the unconditional UPDATE setting `voted_in_cycle = 1` and
`voted_at = now` on the household row. -/
def submitWritePhase (hid : Nat) (soc : String) (tw : Option String)
    (selected : List String) (now : Int) (st : Store) : Store :=
  let votes1 := selected.foldl (fun acc c => upsertVote soc tw c acc) st.votes
  let settings1 := st.settings.map (fun s =>
    if s.society_name == soc then { s with voted_count := s.voted_count + 1 } else s)
  let households1 := st.households.map (fun h =>
    if h.id == hid then { h with voted_in_cycle := 1, voted_at := some now } else h)
  Store.mk households1 settings1 st.schedules votes1

/-- Embedding of the `submit_vote` handler (lines 348 to 385): session and
society presence checks, then the read phase, and on its success the write
phase followed by the commit and the clearing of the session binding. -/
def submitVote (sess : Session) (selected : List String) (now : Int) (st : Store) :
    SubmitResult × Store × Session :=
  match sess.household_id with
  | none => (.err "Session expired", st, sess)
  | some hid =>
    match sess.society_name with
    | none => (.err "Missing society info", st, sess)
    | some soc =>
      match submitReadPhase hid soc selected st with
      | .error m => (.err m, st, sess)
      | .ok tw =>
        (.ok, submitWritePhase hid soc tw selected now st, Session.mk none none)

/-- Interleaved execution of two `submit_vote` requests for the same
household under READ COMMITTED isolation: both transactions run their
SELECT statements against the initial committed state before either one
commits, and their write phases then commit in order (the second UPDATE
re-evaluates only the `WHERE id = ...` clause, which carries no
`voted_in_cycle` condition, so it never blocks a second success). -/
def twoConcurrentSubmits (hid : Nat) (soc : String) (sel1 sel2 : List String)
    (now1 now2 : Int) (st : Store) : (SubmitResult × SubmitResult) × Store :=
  match submitReadPhase hid soc sel1 st, submitReadPhase hid soc sel2 st with
  | .ok tw1, .ok tw2 =>
    let st1 := submitWritePhase hid soc tw1 sel1 now1 st
    ((.ok, .ok), submitWritePhase hid soc tw2 sel2 now2 st1)
  | .ok tw1, .error m2 =>
    ((.ok, .err m2), submitWritePhase hid soc tw1 sel1 now1 st)
  | .error m1, .ok tw2 =>
    ((.err m1, .ok), submitWritePhase hid soc tw2 sel2 now2 st)
  | .error m1, .error m2 => ((.err m1, .err m2), st)

/-- Total active-tally count held by the `votes` table for a key
(society, tower, contestant) with `is_archived = 0`; an absent key
contributes 0. -/
def tallyOf (soc : String) (tw : Option String) (c : String) : List VoteRow → Int
  | [] => 0
  | r :: rest =>
    (if r.society_name == soc && r.tower == tw && r.contestant_name == c
        && r.is_archived == 0 then r.vote_count else 0) + tallyOf soc tw c rest

/-- Address filter that the claim wording prescribes, with its priority
order written out: tower and flat exact, then lane and house aliased onto
the tower and flat columns, then flat alone, then any remaining present
fragment is an incomplete combination, and no fragment at all selects the
all-NULL households. -/
def addrFilterSpec (tower flat lane house : Option String) : Option AddrFilter :=
  if truthy tower && truthy flat then
    some (.towerFlat (tower.getD "") (flat.getD ""))
  else if truthy lane && truthy house then
    some (.towerFlat (lane.getD "") (house.getD ""))
  else if truthy flat then
    some (.flatOnly (flat.getD ""))
  else if truthy tower || truthy lane || truthy house then
    none
  else
    some .allNull

/-- Invariant of the data model: the single-use flag is raised exactly when
the proof-of-vote timestamp is present. -/
def votedFlagInv (st : Store) : Prop :=
  ∀ h ∈ st.households, h.voted_in_cycle = 1 ↔ h.voted_at ≠ none

theorem verifyCode_store_eq (req : VerifyCodeRequest) (now : Int) (st : Store)
    (sess : Session) : (verifyCode req now st sess).2.1 = st := by
  simp only [verifyCode]
  repeat' split
  all_goals rfl

theorem verifyFace_store_eq (req : VerifyFaceRequest) (now : Int)
    (fd fm : Bool) (st : Store) (sess : Session) :
    (verifyFace req now fd fm st sess).2.1 = st := by
  simp only [verifyFace]
  repeat' split
  all_goals rfl

theorem submitWritePhase_inv (hid : Nat) (soc : String) (tw : Option String)
    (selected : List String) (now : Int) (st : Store) (hinv : votedFlagInv st) :
    votedFlagInv (submitWritePhase hid soc tw selected now st) := by
  intro h hmem
  simp only [submitWritePhase, List.mem_map] at hmem
  obtain ⟨x, hx, hfx⟩ := hmem
  by_cases hxid : (x.id == hid) = true
  · rw [if_pos hxid] at hfx
    subst hfx
    simp
  · rw [if_neg hxid] at hfx
    subst hfx
    exact hinv x hx

theorem tallyOf_upsert_same (soc : String) (tw : Option String) (c : String)
    (rows : List VoteRow) :
    tallyOf soc tw c (upsertVote soc tw c rows) = tallyOf soc tw c rows + 1 := by
  induction rows with
  | nil => simp [upsertVote, tallyOf]
  | cons r rest ih =>
    by_cases hr : (r.society_name == soc && r.tower == tw && r.contestant_name == c
        && r.is_archived == 0) = true
    · simp only [upsertVote, hr, if_pos, tallyOf]
      omega
    · simp only [upsertVote, hr, if_neg, Bool.false_eq_true, not_false_iff, tallyOf, ih]
      omega

theorem tallyOf_upsert_other (soc soc2 : String) (tw tw2 : Option String)
    (c c2 : String) (rows : List VoteRow)
    (hne : soc ≠ soc2 ∨ tw ≠ tw2 ∨ c ≠ c2) :
    tallyOf soc2 tw2 c2 (upsertVote soc tw c rows) = tallyOf soc2 tw2 c2 rows := by
  induction rows with
  | nil =>
    simp only [upsertVote, tallyOf]
    rw [if_neg]
    · omega
    · simp only [Bool.and_eq_true, beq_iff_eq]
      tauto
  | cons r rest ih =>
    by_cases hr : (r.society_name == soc && r.tower == tw && r.contestant_name == c
        && r.is_archived == 0) = true
    · simp only [upsertVote, hr, if_pos, tallyOf]
      have hq : (r.society_name == soc2 && (r.tower == tw2) && (r.contestant_name == c2)
          && (r.is_archived == 0)) = false := by
        simp only [Bool.and_eq_true, beq_iff_eq] at hr
        simp only [Bool.and_eq_false_iff, beq_eq_false_iff_ne, ne_eq]
        obtain ⟨⟨⟨h1, h2⟩, h3⟩, h4⟩ := hr
        subst h1 h2 h3
        tauto
      rw [hq]
      simp
    · simp only [upsertVote, hr, if_neg, Bool.false_eq_true, not_false_iff, tallyOf, ih]

theorem tallyOf_foldl_upserts (soc : String) (tw : Option String) (c : String)
    (selected : List String) (rows : List VoteRow) :
    tallyOf soc tw c (selected.foldl (fun acc x => upsertVote soc tw x acc) rows)
      = tallyOf soc tw c rows + (selected.count c : Int) := by
  induction selected generalizing rows with
  | nil => simp
  | cons x xs ih =>
    simp only [List.foldl_cons, ih]
    by_cases hx : x = c
    · subst hx
      rw [tallyOf_upsert_same]
      simp only [List.count_cons, beq_self_eq_true, if_pos]
      push_cast
      omega
    · rw [tallyOf_upsert_other soc soc tw tw x c rows (Or.inr (Or.inr hx))]
      have : xs.count c + (if c == x then 1 else 0) = xs.count c := by
        simp [hx, Ne.symm hx]
      simp [List.count_cons, Ne.symm hx]

theorem find?_map_of_pres {α : Type} (l : List α) (f : α → α) (p : α → Bool)
    (hp : ∀ a, p (f a) = p a) :
    (l.map f).find? p = (l.find? p).map f := by
  induction l with
  | nil => rfl
  | cons a l ih =>
    simp only [List.map_cons, List.find?, hp a]
    cases hpa : p a <;> simp [hpa, ih]

/-- Fixture household that has not voted yet. -/
def wHousehold : Household :=
  Household.mk 1 "Green Park" (some "T1") (some "304") none none
    (some "code1") (some "emb1") false true 0 none

/-- Fixture household that already voted at instant 50. -/
def wVotedHousehold : Household :=
  Household.mk 2 "Green Park" (some "T1") (some "305") none none
    (some "code2") none false true 1 (some 50)

/-- Fixture settings row: selection bound 2, capacity 100, 3 votes so far. -/
def wSettings : Settings := Settings.mk "Green Park" 2 100 3

/-- Fixture schedule: the window is the half-open interval from 100 to 200. -/
def wSchedule : ScheduleRow := ScheduleRow.mk "Green Park" (some 100) (some 200)

/-- Fixture store combining the fixtures above. -/
def wStore : Store := Store.mk [wHousehold, wVotedHousehold] [wSettings] [wSchedule] []

/-- Fixture empty session. -/
def wSess0 : Session := Session.mk none none

/-- Fixture secret-code request for the second (already voted) household. -/
def wReqC : VerifyCodeRequest :=
  VerifyCodeRequest.mk (some "Green Park") (some "T1") (some "305") none none
    (some "code2") "vote"

/-- Fixture face request for the first household. -/
def wReqF : VerifyFaceRequest :=
  VerifyFaceRequest.mk (some "Green Park") (some "T1") (some "304") none none
    (some "imgdata")

/-- C8: the household-lookup predicate built from the address fragments of a
verification request follows the claimed priority order, first match
winning: tower and flat exact on both; lane and house aliased onto the
tower and flat columns; flat alone on flat only; no fragment at all on the
all-NULL address columns; any other partial combination is the incomplete
request error (`none`).  The construction is identical in both
verification strategies. -/
theorem addr_lookup_predicate_priority (tower flat lane house : Option String) :
    buildAddrCode tower flat lane house = addrFilterSpec tower flat lane house ∧
    buildAddrFace tower flat lane house = addrFilterSpec tower flat lane house := by
  constructor <;>
    cases htf : truthy tower <;> cases hff : truthy flat <;>
      cases hlf : truthy lane <;> cases hhf : truthy house <;>
        simp [buildAddrCode, buildAddrFace, addrFilterSpec, htf, hff, hlf, hhf]

/-- Witness for C8 at concrete fragments: lane and house present are
aliased onto the tower and flat columns in both strategies. -/
theorem addr_lookup_predicate_priority_witness :
    buildAddrCode none none (some "L2") (some "17")
      = addrFilterSpec none none (some "L2") (some "17") ∧
    buildAddrFace none none (some "L2") (some "17")
      = addrFilterSpec none none (some "L2") (some "17") :=
  addr_lookup_predicate_priority none none (some "L2") (some "17")

/-- C9: the invariant that the single-use flag is raised exactly when the
proof-of-vote timestamp is present is preserved by every operation of the
engine: both verification handlers leave the store untouched, and
`submit_vote` raises the flag and writes the timestamp in the same atomic
write phase. -/
theorem voted_flag_iff_timestamp_preserved
    (st : Store) (req : VerifyCodeRequest) (freq : VerifyFaceRequest)
    (nowC nowF nowS : Int) (fd fm : Bool) (sessC sessF sessS : Session)
    (selected : List String) (hinv : votedFlagInv st) :
    votedFlagInv (verifyCode req nowC st sessC).2.1 ∧
    votedFlagInv (verifyFace freq nowF fd fm st sessF).2.1 ∧
    votedFlagInv (submitVote sessS selected nowS st).2.1 := by
  refine ⟨?_, ?_, ?_⟩
  · rw [verifyCode_store_eq]
    exact hinv
  · rw [verifyFace_store_eq]
    exact hinv
  · unfold submitVote
    rcases sessS.household_id with _ | hid
    · exact hinv
    · rcases sessS.society_name with _ | soc
      · exact hinv
      · rcases hr : submitReadPhase hid soc selected st with m | tw <;> simp only [hr]
        · exact hinv
        · exact submitWritePhase_inv hid soc tw selected nowS st hinv

/-- Witness for C9 at the fixture store. -/
theorem voted_flag_iff_timestamp_preserved_witness :
    votedFlagInv wStore ∧
    (votedFlagInv (verifyCode wReqC 150 wStore wSess0).2.1 ∧
     votedFlagInv (verifyFace wReqF 150 true true wStore wSess0).2.1 ∧
     votedFlagInv (submitVote (Session.mk (some 1) (some "Green Park")) ["Alice"] 150 wStore).2.1) :=
  ⟨by unfold votedFlagInv; decide,
   voted_flag_iff_timestamp_preserved wStore wReqC wReqF 150 150 150 true true
     wSess0 wSess0 (Session.mk (some 1) (some "Green Park")) ["Alice"]
     (by unfold votedFlagInv; decide)⟩

theorem submitReadPhase_ok (hid : Nat) (soc : String) (selected : List String)
    (st : Store) (h : Household) (stg : Settings)
    (hsel : selected ≠ [])
    (hh : st.households.find? (fun x => x.id == hid) = some h)
    (hnv : h.voted_in_cycle ≠ 1)
    (hstg : st.settings.find? (fun s => s.society_name == soc) = some stg)
    (hcap : stg.voted_count < stg.max_voters) :
    submitReadPhase hid soc selected st = .ok h.tower := by
  unfold submitReadPhase
  simp only [hh, hstg]
  rw [if_neg (by simp [List.isEmpty_iff, hsel]),
    if_neg (by simpa using hnv),
    if_neg (not_le.mpr hcap)]

theorem submitVote_ok_eq (sess : Session) (selected : List String) (now : Int)
    (st : Store) (hid : Nat) (soc : String) (h : Household) (stg : Settings)
    (hsid : sess.household_id = some hid)
    (hsoc : sess.society_name = some soc)
    (hsel : selected ≠ [])
    (hh : st.households.find? (fun x => x.id == hid) = some h)
    (hnv : h.voted_in_cycle ≠ 1)
    (hstg : st.settings.find? (fun s => s.society_name == soc) = some stg)
    (hcap : stg.voted_count < stg.max_voters) :
    submitVote sess selected now st
      = (.ok, submitWritePhase hid soc h.tower selected now st, Session.mk none none) := by
  unfold submitVote
  simp only [hsid, hsoc, submitReadPhase_ok hid soc selected st h stg hsel hh hnv hstg hcap]

/-- C2: on a successful `submit_vote` for a household with selections S, the
active tally for each candidate name under the key
(community, household tower, name, archived = 0) grows by the number of
occurrences of that name in S (so a fresh name gets a row of count 1 and an
existing one is incremented), the community `voted_count` grows by exactly
1, and the household row gets `voted_in_cycle = 1` with `voted_at` set to
the current UTC instant. -/
theorem submit_vote_success_effects
    (sess : Session) (selected : List String) (now : Int) (st : Store)
    (hid : Nat) (soc : String) (h : Household) (stg : Settings)
    (hsid : sess.household_id = some hid)
    (hsoc : sess.society_name = some soc)
    (hsel : selected ≠ [])
    (hh : st.households.find? (fun x => x.id == hid) = some h)
    (hnv : h.voted_in_cycle ≠ 1)
    (hstg : st.settings.find? (fun s => s.society_name == soc) = some stg)
    (hcap : stg.voted_count < stg.max_voters) :
    (submitVote sess selected now st).1 = .ok ∧
    (∀ c : String, tallyOf soc h.tower c (submitVote sess selected now st).2.1.votes
        = tallyOf soc h.tower c st.votes + (selected.count c : Int)) ∧
    (submitVote sess selected now st).2.1.settings.find? (fun s => s.society_name == soc)
        = some { stg with voted_count := stg.voted_count + 1 } ∧
    (submitVote sess selected now st).2.1.households.find? (fun x => x.id == hid)
        = some { h with voted_in_cycle := 1, voted_at := some now } := by
  have hsub := submitVote_ok_eq sess selected now st hid soc h stg
    hsid hsoc hsel hh hnv hstg hcap
  refine ⟨by rw [hsub], ?_, ?_, ?_⟩
  · intro c
    rw [hsub]
    exact tallyOf_foldl_upserts soc h.tower c selected st.votes
  · rw [hsub]
    show (st.settings.map _).find? _ = _
    rw [find?_map_of_pres st.settings _ _
      (by intro a; by_cases ha : (a.society_name == soc) = true <;> simp [ha])]
    rw [hstg]
    have hps : stg.society_name = soc := by simpa using List.find?_some hstg
    simp [hps]
  · rw [hsub]
    show (st.households.map _).find? _ = _
    rw [find?_map_of_pres st.households _ _
      (by intro a; by_cases ha : (a.id == hid) = true <;> simp [ha])]
    rw [hh]
    have hph : h.id = hid := by simpa using List.find?_some hh
    simp [hph]

/-- Witness for C2: the first household of the fixture store submits the
selections Alice and Bob inside the window. -/
theorem submit_vote_success_effects_witness :
    ((Session.mk (some 1) (some "Green Park")).household_id = some 1 ∧
     (Session.mk (some 1) (some "Green Park")).society_name = some "Green Park" ∧
     (["Alice", "Bob"] : List String) ≠ [] ∧
     wStore.households.find? (fun x => x.id == 1) = some wHousehold ∧
     wHousehold.voted_in_cycle ≠ 1 ∧
     wStore.settings.find? (fun s => s.society_name == "Green Park") = some wSettings ∧
     wSettings.voted_count < wSettings.max_voters) ∧
    ((submitVote (Session.mk (some 1) (some "Green Park")) ["Alice", "Bob"] 150 wStore).1 = .ok ∧
     tallyOf "Green Park" wHousehold.tower "Alice"
          (submitVote (Session.mk (some 1) (some "Green Park")) ["Alice", "Bob"] 150 wStore).2.1.votes
        = tallyOf "Green Park" wHousehold.tower "Alice" wStore.votes
          + ((["Alice", "Bob"] : List String).count "Alice" : Int) ∧
     tallyOf "Green Park" wHousehold.tower "Bob"
          (submitVote (Session.mk (some 1) (some "Green Park")) ["Alice", "Bob"] 150 wStore).2.1.votes
        = tallyOf "Green Park" wHousehold.tower "Bob" wStore.votes
          + ((["Alice", "Bob"] : List String).count "Bob" : Int) ∧
     (submitVote (Session.mk (some 1) (some "Green Park")) ["Alice", "Bob"] 150 wStore).2.1.settings.find?
          (fun s => s.society_name == "Green Park")
        = some { wSettings with voted_count := wSettings.voted_count + 1 } ∧
     (submitVote (Session.mk (some 1) (some "Green Park")) ["Alice", "Bob"] 150 wStore).2.1.households.find?
          (fun x => x.id == 1)
        = some { wHousehold with voted_in_cycle := 1, voted_at := some 150 }) := by
  have happ := submit_vote_success_effects (Session.mk (some 1) (some "Green Park"))
    ["Alice", "Bob"] 150 wStore 1 "Green Park" wHousehold wSettings
    (by decide) (by decide) (by decide) (by decide) (by decide) (by decide) (by decide)
  exact ⟨⟨by decide, by decide, by decide, by decide, by decide, by decide, by decide⟩,
    happ.1, happ.2.1 "Alice", happ.2.1 "Bob", happ.2.2.1, happ.2.2.2⟩

/-- Fixture settings row whose `voted_count` has reached `max_voters`. -/
def wFullSettings : Settings := Settings.mk "Green Park" 2 100 100

/-- Fixture store at capacity. -/
def wStoreFull : Store :=
  Store.mk [wHousehold, wVotedHousehold] [wFullSettings] [wSchedule] []

/-- C4: when the community `voted_count` has reached `max_voters`, the
submission is rejected with `Max votes reached` and the whole store and
session are returned unchanged: no tally row, `voted_count`,
`voted_in_cycle` or `voted_at` mutation happens.  The guard in the source
tests `voted_count >= max_voters`, which covers equality. -/
theorem submit_vote_capacity_guard
    (sess : Session) (selected : List String) (now : Int) (st : Store)
    (hid : Nat) (soc : String) (h : Household) (stg : Settings)
    (hsid : sess.household_id = some hid)
    (hsoc : sess.society_name = some soc)
    (hsel : selected ≠ [])
    (hh : st.households.find? (fun x => x.id == hid) = some h)
    (hnv : h.voted_in_cycle ≠ 1)
    (hstg : st.settings.find? (fun s => s.society_name == soc) = some stg)
    (hcap : stg.max_voters ≤ stg.voted_count) :
    submitVote sess selected now st = (.err "Max votes reached", st, sess) := by
  have hread : submitReadPhase hid soc selected st = .error "Max votes reached" := by
    unfold submitReadPhase
    simp only [hh, hstg]
    rw [if_neg (by simp [List.isEmpty_iff, hsel]),
      if_neg (by simpa using hnv),
      if_pos hcap]
  unfold submitVote
  simp only [hsid, hsoc, hread]

/-- Witness for C4: at the fixture store at capacity (`voted_count` equal to
`max_voters`), submission is rejected and the store is unchanged. -/
theorem submit_vote_capacity_guard_witness :
    ((Session.mk (some 1) (some "Green Park")).household_id = some 1 ∧
     (Session.mk (some 1) (some "Green Park")).society_name = some "Green Park" ∧
     (["Alice"] : List String) ≠ [] ∧
     wStoreFull.households.find? (fun x => x.id == 1) = some wHousehold ∧
     wHousehold.voted_in_cycle ≠ 1 ∧
     wStoreFull.settings.find? (fun s => s.society_name == "Green Park") = some wFullSettings ∧
     wFullSettings.max_voters ≤ wFullSettings.voted_count ∧
     wFullSettings.voted_count = wFullSettings.max_voters) ∧
    submitVote (Session.mk (some 1) (some "Green Park")) ["Alice"] 150 wStoreFull
      = (.err "Max votes reached", wStoreFull, Session.mk (some 1) (some "Green Park")) :=
  ⟨⟨by decide, by decide, by decide, by decide, by decide, by decide, by decide, by decide⟩,
   submit_vote_capacity_guard (Session.mk (some 1) (some "Green Park")) ["Alice"] 150
     wStoreFull 1 "Green Park" wHousehold wFullSettings
     (by decide) (by decide) (by decide) (by decide) (by decide) (by decide) (by decide)⟩

/-- C10: `submit_vote` consults no voting schedule: for a session-bound
household that has not voted, with capacity left and a non-empty selection,
the vote commits at every instant `now`, whatever schedule rows the store
holds — in particular after `end_time` has passed. -/
theorem submit_vote_ignores_schedule
    (sess : Session) (selected : List String) (now : Int) (st : Store)
    (hid : Nat) (soc : String) (h : Household) (stg : Settings)
    (hsid : sess.household_id = some hid)
    (hsoc : sess.society_name = some soc)
    (hsel : selected ≠ [])
    (hh : st.households.find? (fun x => x.id == hid) = some h)
    (hnv : h.voted_in_cycle ≠ 1)
    (hstg : st.settings.find? (fun s => s.society_name == soc) = some stg)
    (hcap : stg.voted_count < stg.max_voters) :
    (submitVote sess selected now st).1 = .ok := by
  rw [submitVote_ok_eq sess selected now st hid soc h stg hsid hsoc hsel hh hnv hstg hcap]

/-- Witness for C10: the fixture schedule ends at instant 200, yet the ballot
commits at instant 999. -/
theorem submit_vote_ignores_schedule_witness :
    ((Session.mk (some 1) (some "Green Park")).household_id = some 1 ∧
     (Session.mk (some 1) (some "Green Park")).society_name = some "Green Park" ∧
     (["Alice"] : List String) ≠ [] ∧
     wStore.households.find? (fun x => x.id == 1) = some wHousehold ∧
     wHousehold.voted_in_cycle ≠ 1 ∧
     wStore.settings.find? (fun s => s.society_name == "Green Park") = some wSettings ∧
     wSettings.voted_count < wSettings.max_voters ∧
     wStore.schedules.find? (fun r => r.society_name == "Green Park") = some wSchedule ∧
     wSchedule.end_time = some 200 ∧ (200 : Int) ≤ 999) ∧
    (submitVote (Session.mk (some 1) (some "Green Park")) ["Alice"] 999 wStore).1 = .ok :=
  ⟨⟨by decide, by decide, by decide, by decide, by decide, by decide, by decide,
     by decide, by decide, by decide⟩,
   submit_vote_ignores_schedule (Session.mk (some 1) (some "Green Park")) ["Alice"] 999
     wStore 1 "Green Park" wHousehold wSettings
     (by decide) (by decide) (by decide) (by decide) (by decide) (by decide) (by decide)⟩

/-- C3 counterexample: the fixture settings bound
`max_candidates_selection = 2`, yet a selection list of length 3 is
accepted and the tally table is mutated, so the claimed rejection of
oversized lists does not happen. -/
theorem submit_vote_overlong_selection_accepted :
    wSettings.max_candidates_selection < (["Alice", "Bob", "Carol"] : List String).length ∧
    (submitVote (Session.mk (some 1) (some "Green Park")) ["Alice", "Bob", "Carol"] 150 wStore).1
      = .ok ∧
    (submitVote (Session.mk (some 1) (some "Green Park")) ["Alice", "Bob", "Carol"] 150
      wStore).2.1.votes ≠ wStore.votes := by decide

/-- C3 as amended: an empty selection list is rejected with
`No contestants selected` and the store and session are unchanged, but the
`max_candidates_selection` bound is not enforced: a list longer than the
bound still commits. -/
theorem submit_vote_empty_selection_rejected :
    (∀ (sess : Session) (now : Int) (st : Store) (hid : Nat) (soc : String),
      sess.household_id = some hid → sess.society_name = some soc →
      submitVote sess [] now st = (.err "No contestants selected", st, sess)) ∧
    (∀ (sess : Session) (selected : List String) (now : Int) (st : Store)
        (hid : Nat) (soc : String) (h : Household) (stg : Settings),
      sess.household_id = some hid → sess.society_name = some soc →
      selected ≠ [] →
      st.households.find? (fun x => x.id == hid) = some h →
      h.voted_in_cycle ≠ 1 →
      st.settings.find? (fun s => s.society_name == soc) = some stg →
      stg.voted_count < stg.max_voters →
      stg.max_candidates_selection < selected.length →
      (submitVote sess selected now st).1 = .ok) := by
  constructor
  · intro sess now st hid soc hsid hsoc
    unfold submitVote
    simp only [hsid, hsoc, submitReadPhase, List.isEmpty_nil, if_pos]
  · intro sess selected now st hid soc h stg hsid hsoc hsel hh hnv hstg hcap hlen
    rw [submitVote_ok_eq sess selected now st hid soc h stg hsid hsoc hsel hh hnv hstg hcap]

/-- Witness for the amended C3: the empty list is rejected at the fixture
store, and the oversized list of the counterexample commits. -/
theorem submit_vote_empty_selection_rejected_witness :
    ((Session.mk (some 1) (some "Green Park")).household_id = some 1 ∧
     (Session.mk (some 1) (some "Green Park")).society_name = some "Green Park" ∧
     wSettings.max_candidates_selection < (["Alice", "Bob", "Carol"] : List String).length) ∧
    submitVote (Session.mk (some 1) (some "Green Park")) [] 150 wStore
      = (.err "No contestants selected", wStore, Session.mk (some 1) (some "Green Park")) ∧
    (submitVote (Session.mk (some 1) (some "Green Park")) ["Alice", "Bob", "Carol"] 150 wStore).1
      = .ok :=
  ⟨⟨by decide, by decide, by decide⟩,
   submit_vote_empty_selection_rejected.1 (Session.mk (some 1) (some "Green Park")) 150 wStore
     1 "Green Park" (by decide) (by decide),
   submit_vote_empty_selection_rejected.2 (Session.mk (some 1) (some "Green Park"))
     ["Alice", "Bob", "Carol"] 150 wStore 1 "Green Park" wHousehold wSettings
     (by decide) (by decide) (by decide) (by decide) (by decide) (by decide) (by decide) (by decide)⟩

/-- C1: the source reads `voted_in_cycle` with a SELECT and later flips it
with an UPDATE guarded only by `WHERE id = ...`, with no
update-where-not-yet-voted condition and no affected-row-count check.
Under READ COMMITTED both statements of two concurrent requests can
interleave as read, read, write, write, in which case both requests
succeed, `voted_count` rises by 2 and the tally for the selected candidate
rises by 2 — the claimed exactly-one-success serialization fails.  The
same second submission issued sequentially after the first is rejected
with `Already voted`, showing the guard works only without concurrency. -/
theorem concurrent_double_submit :
    (twoConcurrentSubmits 1 "Green Park" ["Alice"] ["Alice"] 150 151 wStore).1
      = (.ok, .ok) ∧
    ((twoConcurrentSubmits 1 "Green Park" ["Alice"] ["Alice"] 150 151 wStore).2.settings.find?
        (fun s => s.society_name == "Green Park")).map (fun s => s.voted_count)
      = some (wSettings.voted_count + 2) ∧
    tallyOf "Green Park" (some "T1") "Alice"
        (twoConcurrentSubmits 1 "Green Park" ["Alice"] ["Alice"] 150 151 wStore).2.votes = 2 ∧
    (submitVote (Session.mk (some 1) (some "Green Park")) ["Alice"] 151
        ((submitVote (Session.mk (some 1) (some "Green Park")) ["Alice"] 150 wStore).2.1)).1
      = .err "Already voted" := by decide

theorem truthy_some_of_ne (s : String) (hs : s ≠ "") : truthy (some s) = true := by
  simp [truthy, hs]

/-- C6: in verify-only mode (any mode other than `vote`), a household that
passes the schedule-configured, credential, admin-block and vote-allowed
checks and that has already voted gets a success response carrying its
stored `voted_at` timestamp, at every instant `now` (the window check is
skipped) and despite `voted_in_cycle = 1` (the already-voted check is
skipped); the store is returned untouched and only the session is bound. -/
theorem verify_only_returns_receipt
    (req : VerifyCodeRequest) (now : Int) (st : Store) (sess : Session)
    (soc code : String) (sched : ScheduleRow) (a b : Int) (filt : AddrFilter)
    (h : Household) (t : Int)
    (hsoc : req.society = some soc) (hsocne : soc ≠ "")
    (hcode : req.secret_code = some code) (hcodene : code ≠ "")
    (hmode : req.mode ≠ "vote")
    (hsched : st.schedules.find? (fun r => r.society_name == soc) = some sched)
    (ha : sched.start_time = some a) (hb : sched.end_time = some b)
    (hfilt : buildAddrCode req.tower req.flat req.lane req.house = some filt)
    (hh : st.households.find? (fun x => x.society_name == soc
        && x.secret_code == some code && matchesAddr filt x) = some h)
    (hblk : h.is_admin_blocked = false) (hallow : h.is_vote_allowed = true)
    (hv : h.voted_in_cycle = 1) (ht : h.voted_at = some t) :
    verifyCode req now st sess = (.ok (some t), st, Session.mk (some h.id) (some soc)) := by
  have h1 : truthy req.society = true := by
    rw [hsoc]
    exact truthy_some_of_ne soc hsocne
  have h2 : truthy req.secret_code = true := by
    rw [hcode]
    exact truthy_some_of_ne code hcodene
  have h3 : (req.mode == "vote") = false := by simpa using hmode
  unfold verifyCode
  simp [h1, h2, hsoc, hcode, hsched, ha, hb, hfilt, hh, hblk, hallow, h3, hv, ht,
    truthy_some_of_ne soc hsocne, truthy_some_of_ne code hcodene]

/-- Witness for C6: the already-voted fixture household retrieves its
receipt timestamp 50 at instant 999, far outside the window ending at
200, with the store unchanged. -/
theorem verify_only_returns_receipt_witness :
    ((VerifyCodeRequest.mk (some "Green Park") (some "T1") (some "305") none none
        (some "code2") "verify").mode ≠ "vote" ∧
     wStore.schedules.find? (fun r => r.society_name == "Green Park") = some wSchedule ∧
     wSchedule.start_time = some 100 ∧ wSchedule.end_time = some 200 ∧
     buildAddrCode (some "T1") (some "305") none none = some (.towerFlat "T1" "305") ∧
     wStore.households.find? (fun x => x.society_name == "Green Park"
        && x.secret_code == some "code2" && matchesAddr (.towerFlat "T1" "305") x)
       = some wVotedHousehold ∧
     wVotedHousehold.is_admin_blocked = false ∧ wVotedHousehold.is_vote_allowed = true ∧
     wVotedHousehold.voted_in_cycle = 1 ∧ wVotedHousehold.voted_at = some 50 ∧
     ¬((100 : Int) ≤ 999 ∧ (999 : Int) < 200)) ∧
    verifyCode (VerifyCodeRequest.mk (some "Green Park") (some "T1") (some "305") none none
        (some "code2") "verify") 999 wStore wSess0
      = (.ok (some 50), wStore, Session.mk (some wVotedHousehold.id) (some "Green Park")) :=
  ⟨⟨by decide, by decide, by decide, by decide, by decide, by decide, by decide,
     by decide, by decide, by decide, by decide⟩,
   verify_only_returns_receipt
     (VerifyCodeRequest.mk (some "Green Park") (some "T1") (some "305") none none
       (some "code2") "verify") 999 wStore wSess0 "Green Park" "code2" wSchedule
     100 200 (.towerFlat "T1" "305") wVotedHousehold 50
     (by decide) (by decide) (by decide) (by decide) (by decide) (by decide) (by decide)
     (by decide) (by decide) (by decide) (by decide) (by decide) (by decide) (by decide)⟩

/-- C5: with intent to cast a vote, the schedule gate of each verification
handler rejects with `Voting is closed` exactly when the current UTC
instant lies outside the half-open window from `start_time` (inclusive) to
`end_time` (exclusive): at `start_time` and one instant before `end_time`
it passes, at `end_time` and later it rejects. -/
theorem schedule_window_half_open
    (req : VerifyCodeRequest) (now : Int) (st : Store) (sess : Session)
    (soc code : String) (sched : ScheduleRow) (a b : Int) (filt : AddrFilter) (h : Household)
    (freq : VerifyFaceRequest) (nowF : Int) (fd fm : Bool) (stF : Store) (sessF : Session)
    (socF imgF : String) (schedF : ScheduleRow) (aF bF : Int)
    (hsoc : req.society = some soc) (hsocne : soc ≠ "")
    (hcode : req.secret_code = some code) (hcodene : code ≠ "")
    (hmode : req.mode = "vote")
    (hsched : st.schedules.find? (fun r => r.society_name == soc) = some sched)
    (ha : sched.start_time = some a) (hb : sched.end_time = some b)
    (hfilt : buildAddrCode req.tower req.flat req.lane req.house = some filt)
    (hh : st.households.find? (fun x => x.society_name == soc
        && x.secret_code == some code && matchesAddr filt x) = some h)
    (hblk : h.is_admin_blocked = false) (hallow : h.is_vote_allowed = true)
    (hsocF : freq.society = some socF) (hsocFne : socF ≠ "")
    (himg : freq.image_data = some imgF) (himgne : imgF ≠ "")
    (hschedF : stF.schedules.find? (fun r => r.society_name == socF) = some schedF)
    (haF : schedF.start_time = some aF) (hbF : schedF.end_time = some bF) :
    ((verifyCode req now st sess).1 = .err "Voting is closed" ↔ ¬(a ≤ now ∧ now < b)) ∧
    ((verifyFace freq nowF fd fm stF sessF).1 = .err "Voting is closed"
      ↔ ¬(aF ≤ nowF ∧ nowF < bF)) := by
  constructor
  · by_cases hw : a ≤ now ∧ now < b
    · by_cases hv1 : (h.voted_in_cycle == 1) = true <;>
        simp [verifyCode, truthy_some_of_ne soc hsocne, truthy_some_of_ne code hcodene,
          hsoc, hcode, hsched, ha, hb, hfilt, hh, hblk, hallow, hmode, hv1, hw]
    · simp [verifyCode, truthy_some_of_ne soc hsocne, truthy_some_of_ne code hcodene,
        hsoc, hcode, hsched, ha, hb, hfilt, hh, hblk, hallow, hmode, hw]
  · by_cases hw : aF ≤ nowF ∧ nowF < bF
    · simp only [hw, not_true_eq_false, iff_false]
      simp [verifyFace, truthy_some_of_ne socF hsocFne, truthy_some_of_ne imgF himgne,
        hsocF, himg, hschedF, haF, hbF, hw]
      repeat' split
      all_goals simp
    · simp [verifyFace, truthy_some_of_ne socF hsocFne, truthy_some_of_ne imgF himgne,
        hsocF, himg, hschedF, haF, hbF, hw]

/-- Witness for C5 at the fixture store: the window runs from 100 to 200; a
secret-code cast attempt at the exact end instant 200 satisfies the
rejection side of the equivalence, and a face attempt at the exact start
instant 100 satisfies the acceptance side. -/
theorem schedule_window_half_open_witness :
    ("Green Park" ≠ "" ∧ "code1" ≠ "" ∧ "img" ≠ "" ∧
     wStore.schedules.find? (fun r => r.society_name == "Green Park") = some wSchedule ∧
     wSchedule.start_time = some 100 ∧ wSchedule.end_time = some 200 ∧
     wStore.households.find? (fun x => x.society_name == "Green Park"
        && x.secret_code == some "code1" && matchesAddr (.towerFlat "T1" "304") x)
       = some wHousehold) ∧
    ((verifyCode (VerifyCodeRequest.mk (some "Green Park") (some "T1") (some "304") none none
          (some "code1") "vote") 200 wStore wSess0).1 = .err "Voting is closed"
      ↔ ¬((100 : Int) ≤ 200 ∧ (200 : Int) < 200)) ∧
    ((verifyFace (VerifyFaceRequest.mk (some "Green Park") (some "T1") (some "304") none none
          (some "img")) 100 true true wStore wSess0).1 = .err "Voting is closed"
      ↔ ¬((100 : Int) ≤ 100 ∧ (100 : Int) < 200)) :=
  ⟨⟨by decide, by decide, by decide, by decide, by decide, by decide, by decide⟩,
   schedule_window_half_open
     (VerifyCodeRequest.mk (some "Green Park") (some "T1") (some "304") none none
       (some "code1") "vote") 200 wStore wSess0 "Green Park" "code1" wSchedule
     100 200 (.towerFlat "T1" "304") wHousehold
     (VerifyFaceRequest.mk (some "Green Park") (some "T1") (some "304") none none
       (some "img")) 100 true true wStore wSess0 "Green Park" "img" wSchedule 100 200
     (by decide) (by decide) (by decide) (by decide) (by decide) (by decide)
     (by decide) (by decide) (by decide) (by decide) (by decide) (by decide)
     (by decide) (by decide) (by decide) (by decide) (by decide) (by decide) (by decide)⟩

/-- C7 counterexample: with no schedule row for the society, `verify_face`
subscripts the missing row, raises, and surfaces the generic
`Server error` — not a distinct schedule-not-set reason as claimed. -/
theorem verify_face_missing_schedule_generic_error :
    verifyFace (VerifyFaceRequest.mk (some "Green Park") (some "T1") (some "304") none none
        (some "img")) 150 true true (Store.mk [wHousehold] [wSettings] [] []) wSess0
      = (.err "Server error", Store.mk [wHousehold] [wSettings] [] [], wSess0) ∧
    (VerifyResult.err "Server error" ≠ VerifyResult.err "Voting schedule not set") := by
  decide

/-- C7 as amended: when the schedule row is absent or one of its bounds is
NULL, `verify_code` rejects with the distinct `Voting schedule not set`
reason before any credential processing, while `verify_face` fails with the
generic `Server error` for the same condition. -/
theorem schedule_missing_rejections
    (req : VerifyCodeRequest) (now : Int) (st : Store) (sess : Session)
    (soc code : String)
    (freq : VerifyFaceRequest) (nowF : Int) (fd fm : Bool) (stF : Store) (sessF : Session)
    (socF imgF : String)
    (hsoc : req.society = some soc) (hsocne : soc ≠ "")
    (hcode : req.secret_code = some code) (hcodene : code ≠ "")
    (hmiss : ∀ r, st.schedules.find? (fun x => x.society_name == soc) = some r →
      r.start_time = none ∨ r.end_time = none)
    (hsocF : freq.society = some socF) (hsocFne : socF ≠ "")
    (himg : freq.image_data = some imgF) (himgne : imgF ≠ "")
    (hmissF : ∀ r, stF.schedules.find? (fun x => x.society_name == socF) = some r →
      r.start_time = none ∨ r.end_time = none) :
    verifyCode req now st sess = (.err "Voting schedule not set", st, sess) ∧
    verifyFace freq nowF fd fm stF sessF = (.err "Server error", stF, sessF) := by
  constructor
  · have h1 : truthy req.society = true := by
      rw [hsoc]
      exact truthy_some_of_ne soc hsocne
    have h2 : truthy req.secret_code = true := by
      rw [hcode]
      exact truthy_some_of_ne code hcodene
    unfold verifyCode
    simp only [h1, h2, truthy_some_of_ne soc hsocne, truthy_some_of_ne code hcodene,
      Bool.and_self, Bool.not_true, Bool.false_eq_true, if_false,
      hsoc, hcode, Option.getD_some]
    rcases hs : st.schedules.find? (fun x => x.society_name == soc) with _ | r
    · simp [hs]
    · rcases hmiss r hs with h0 | h0 <;>
        rcases hstt : r.start_time with _ | av <;>
          rcases hent : r.end_time with _ | bv <;> simp_all
  · have h1F : truthy freq.society = true := by
      rw [hsocF]
      exact truthy_some_of_ne socF hsocFne
    have h2F : truthy freq.image_data = true := by
      rw [himg]
      exact truthy_some_of_ne imgF himgne
    unfold verifyFace
    simp only [h1F, h2F, truthy_some_of_ne socF hsocFne, truthy_some_of_ne imgF himgne,
      Bool.and_self, Bool.not_true, Bool.false_eq_true, if_false,
      hsocF, himg, Option.getD_some]
    rcases hs : stF.schedules.find? (fun x => x.society_name == socF) with _ | r
    · simp [hs]
    · rcases hmissF r hs with h0 | h0 <;>
        rcases hstt : r.start_time with _ | av <;>
          rcases hent : r.end_time with _ | bv <;> simp_all

/-- Witness for the amended C7: a store whose only schedule row has a NULL
`start_time`, so both rejection shapes are exhibited on it. -/
theorem schedule_missing_rejections_witness :
    ("Green Park" ≠ "" ∧ "code1" ≠ "" ∧ "img" ≠ "" ∧
     (Store.mk [wHousehold] [wSettings] [ScheduleRow.mk "Green Park" none (some 200)]
        []).schedules.find? (fun x => x.society_name == "Green Park")
       = some (ScheduleRow.mk "Green Park" none (some 200))) ∧
    verifyCode (VerifyCodeRequest.mk (some "Green Park") (some "T1") (some "304") none none
        (some "code1") "vote") 150
        (Store.mk [wHousehold] [wSettings] [ScheduleRow.mk "Green Park" none (some 200)] []) wSess0
      = (.err "Voting schedule not set",
         Store.mk [wHousehold] [wSettings] [ScheduleRow.mk "Green Park" none (some 200)] [],
         wSess0) ∧
    verifyFace (VerifyFaceRequest.mk (some "Green Park") (some "T1") (some "304") none none
        (some "img")) 150 true true
        (Store.mk [wHousehold] [wSettings] [ScheduleRow.mk "Green Park" none (some 200)] []) wSess0
      = (.err "Server error",
         Store.mk [wHousehold] [wSettings] [ScheduleRow.mk "Green Park" none (some 200)] [],
         wSess0) := by
  have happ := schedule_missing_rejections
    (VerifyCodeRequest.mk (some "Green Park") (some "T1") (some "304") none none
      (some "code1") "vote") 150
    (Store.mk [wHousehold] [wSettings] [ScheduleRow.mk "Green Park" none (some 200)] [])
    wSess0 "Green Park" "code1"
    (VerifyFaceRequest.mk (some "Green Park") (some "T1") (some "304") none none
      (some "img")) 150 true true
    (Store.mk [wHousehold] [wSettings] [ScheduleRow.mk "Green Park" none (some 200)] [])
    wSess0 "Green Park" "img"
    (by decide) (by decide) (by decide) (by decide)
    (by intro r hr
        have h0 : (Store.mk [wHousehold] [wSettings]
              [ScheduleRow.mk "Green Park" none (some 200)] []).schedules.find?
              (fun x => x.society_name == "Green Park")
            = some (ScheduleRow.mk "Green Park" none (some 200)) := rfl
        rw [h0] at hr
        cases hr
        left
        rfl)
    (by decide) (by decide) (by decide) (by decide)
    (by intro r hr
        have h0 : (Store.mk [wHousehold] [wSettings]
              [ScheduleRow.mk "Green Park" none (some 200)] []).schedules.find?
              (fun x => x.society_name == "Green Park")
            = some (ScheduleRow.mk "Green Park" none (some 200)) := rfl
        rw [h0] at hr
        cases hr
        left
        rfl)
  exact ⟨⟨by decide, by decide, by decide, by decide⟩, happ.1, happ.2⟩

end VotingSys
